import Mathlib

/-!
Verification of the psychic prediction backend.

Shallow embedding, in Lean 4, of the core of the psychic prediction
service: the dissimilarity-constrained picture selector
(`pictureApiClient.ts`), the prediction session record and its store
operations (`predictionStore.ts`), the HTTP handlers
(`postPsychicCreate.ts`, `postPsychicPredict.ts`, `postPsychicReveal.ts`,
`getPsychic.ts`, `getPsychicList.ts`) and the adjudicating comparer
(`predictionComparer.ts`).

Modelling conventions:
* External collaborators are inputs: the Pexels picture source is an
  infinite stream `ℕ → Picture` consumed at an explicit cursor, the
  reasoning oracle's behaviour is an `OracleOutcome` value, `JSON.parse`
  on the oracle's output is a function argument, DynamoDB is an
  `Option Prediction` per session plus pure record updates mirroring the
  `UpdateExpression`s.
* A thrown JS exception that aborts a handler is an error constructor of
  the result type; a `throw` inside the selector is `none`.
* JS `undefined`/`null` string fields are `Option String`; JS truthiness
  of such a field ("" and absent are both falsy) is `strTruthy`.
* `JSON.stringify` drops `undefined` properties, so a response field that
  the code omits or sets to `undefined` is `none` in the view record.
* Floating point: the only float arithmetic in the core is
  `Math.sqrt(sq)/441 < 0.3` and `inter/union > 0.5` on small integer
  inputs, far from any rounding boundary; both tests are embedded in
  exact square-compared / rational form, with bridge lemmas relating the
  sqrt-free form to the source's real-number formula.
-/

namespace Psychic

/-- JS truthiness of an optional string field: present and non-empty. -/
def strTruthy : Option String → Bool
  | none => false
  | some s => decide (s ≠ "")

/-- A picture fetched from the source (`PsychicPicture`, the fields the
core logic reads; attribution metadata is carried unmodified and omitted
here). -/
structure Picture where
  id : String
  url : String
  thumbnailUrl : Option String := none
  description : Option String := none
  avgColor : Option String := none
deriving DecidableEq, Repr

/-- An RGB triple as produced by `hexToRgb` in
`PictureApiClient.colorDistance`. -/
structure Rgb where
  r : Nat
  g : Nat
  b : Nat
deriving DecidableEq, Repr

/-- Value of one hex digit, matching the character class `[a-f\d]` of the
source regex, case-insensitively. -/
def hexDigitVal (c : Char) : Option Nat :=
  if '0' ≤ c ∧ c ≤ '9' then some (c.toNat - '0'.toNat)
  else if 'a' ≤ c ∧ c ≤ 'f' then some (c.toNat - 'a'.toNat + 10)
  else if 'A' ≤ c ∧ c ≤ 'F' then some (c.toNat - 'A'.toNat + 10)
  else none

/-- Embeds `parseInt(hh, 16)` of a two-hex-digit group. -/
def byteOfHex (c1 c2 : Char) : Option Nat :=
  match hexDigitVal c1, hexDigitVal c2 with
  | some h, some l => some (16 * h + l)
  | _, _ => none

/-- Embeds `hexToRgb` of `PictureApiClient.colorDistance`: the anchored regex
`^#?([a-f\d]{2})([a-f\d]{2})([a-f\d]{2})$` (case-insensitive); on no
match the code falls back to `{r: 0, g: 0, b: 0}`. -/
def hexToRgb (s : String) : Rgb :=
  let cs :=
    match s.data with
    | '#' :: rest => rest
    | rest => rest
  match cs with
  | [a, b, c, d, e, f] =>
    match byteOfHex a b, byteOfHex c d, byteOfHex e f with
    | some rv, some gv, some bv => ⟨rv, gv, bv⟩
    | _, _, _ => ⟨0, 0, 0⟩
  | _ => ⟨0, 0, 0⟩

/-- Squared Euclidean distance in RGB space (the radicand of
`colorDistance` before `Math.sqrt`). -/
def colorDistSq (x y : Rgb) : ℤ :=
  ((x.r : ℤ) - y.r) ^ 2 + ((x.g : ℤ) - y.g) ^ 2 + ((x.b : ℤ) - y.b) ^ 2

/-- The rejection test `colorDistance(c1, c2) < 0.3` of
`arePicturesDissimilar`, where `colorDistance = Math.sqrt(sq) / 441`, in
exact square-compared form: `sqrt sq / 441 < 3/10 ↔ 100 * sq < 1750329`
(`colorCheck_matches_source_formula` below). -/
def colorTooSimilar (c1 c2 : String) : Bool :=
  decide (100 * colorDistSq (hexToRgb c1) (hexToRgb c2) < 1750329)

/-- JS `\s` whitespace, restricted to the ASCII whitespace characters that
can occur in the inputs at hand. -/
def jsIsSpace (c : Char) : Bool :=
  c == ' ' || c == '\t' || c == '\n' || c == '\r' || c == '\x0b' || c == '\x0c'

/-- Drops empty strings except a trailing one (helper for the semantics of
JS `String.prototype.split` with a `+`-quantified separator regex, which
collapses runs of separators but keeps boundary empties). -/
def dropInnerEmpty : List String → List String
  | [] => []
  | [x] => [x]
  | x :: xs => if x = "" then dropInnerEmpty xs else x :: dropInnerEmpty xs

/-- Splits a character list at every whitespace character, keeping the
(possibly empty) fragments between them — the per-separator split
underlying JS `split`. -/
def splitAtSpaces : List Char → List (List Char)
  | [] => [[]]
  | c :: cs =>
    if jsIsSpace c then [] :: splitAtSpaces cs
    else
      match splitAtSpaces cs with
      | [] => [[c]]
      | t :: ts => (c :: t) :: ts

/-- JS `s.split(/\s+/)`: split at maximal whitespace runs; a leading or
trailing run contributes an empty token, interior runs do not (the
`+`-quantifier collapses interior empties of the per-character split). -/
def jsSplitWhitespace (s : String) : List String :=
  match (splitAtSpaces s.data).map (fun t => String.mk t) with
  | [] => []
  | first :: rest => first :: dropInnerEmpty rest

/-- Embeds `desc.toLowerCase().split(/\s+/)` of `arePicturesDissimilar`
(`toLowerCase` maps `Char.toLower` over the characters). -/
def jsTokens (s : String) : List String :=
  jsSplitWhitespace (String.mk (s.data.map Char.toLower))

/-- Embeds `intersection.size` of `arePicturesDissimilar`: the JS `Set` of the
first description's tokens filtered by membership in the second's. -/
def interCount (d1 d2 : String) : ℕ :=
  ((jsTokens d1).dedup.filter (fun w => (jsTokens d2).dedup.contains w)).length

/-- Embeds `union.size` of `arePicturesDissimilar`: the JS `Set` of both
descriptions' tokens. -/
def unionCount (d1 d2 : String) : ℕ :=
  (((jsTokens d1).dedup ++ (jsTokens d2).dedup).dedup).length

/-- The word-overlap similarity of `arePicturesDissimilar`:
`intersection.size / union.size`, as an exact rational. -/
def lexicalSimilarity (d1 d2 : String) : ℚ :=
  (interCount d1 d2 : ℚ) / (unionCount d1 d2 : ℚ)

/-- The rejection test `similarity > 0.5` of `arePicturesDissimilar`, in
division-free form (`union.size < 2 * intersection.size`); equivalent to
the source's quotient test since the union is never empty
(`lexicalCheck_matches_source_formula` below). -/
def lexicalTooSimilar (d1 d2 : String) : Bool :=
  decide ((unionCount d1 d2 : ℤ) < 2 * interCount d1 d2)

/-- The first early-return of `arePicturesDissimilar`: both average
colors truthy and `colorDistance < 0.3`. -/
def colorRejected (p1 p2 : Picture) : Bool :=
  match p1.avgColor, p2.avgColor with
  | some c1, some c2 =>
    if c1 ≠ "" ∧ c2 ≠ "" then colorTooSimilar c1 c2 else false
  | _, _ => false

/-- The second early-return of `arePicturesDissimilar`: both descriptions
truthy and word-overlap similarity `> 0.5`. -/
def descRejected (p1 p2 : Picture) : Bool :=
  match p1.description, p2.description with
  | some d1, some d2 =>
    if d1 ≠ "" ∧ d2 ≠ "" then lexicalTooSimilar d1 d2
    else false
  | _, _ => false

/-- Embeds `PictureApiClient.arePicturesDissimilar`: reject when both average
colors are truthy and too similar, reject when both descriptions are
truthy and the similarity exceeds 0.5, otherwise accept (a missing
criterion is skipped; the sequential early returns of the source equal
this conjunction). -/
def arePicturesDissimilar (p1 p2 : Picture) : Bool :=
  !colorRejected p1 p2 && !descRejected p1 p2

/-- One inner resampling loop of `fetchTwoDissimilarPictures`
(`while (bad(p) && retries < 5) { p = fetch(); retries++ }`), returning
the final candidate and the stream cursor after it. `p` is the already
fetched current candidate, `i` the cursor, `r` the remaining retries. -/
def retryLoop (bad : Picture → Bool) (src : ℕ → Picture) :
    Picture → ℕ → ℕ → Picture × ℕ
  | p, i, 0 => (p, i)
  | p, i, r + 1 => if bad p then retryLoop bad src (src i) (i + 1) r else (p, i)

/-- One iteration of the outer `while (attempts < maxAttempts)` loop:
fetch the first candidate (resampling while its id is excluded), then the
second (resampling while it duplicates the first or is excluded). -/
def attemptPair (used : List String) (src : ℕ → Picture) (i : ℕ) :
    (Picture × Picture) × ℕ :=
  let s1 := retryLoop (fun p => used.contains p.id) src (src i) (i + 1) 5
  let s2 := retryLoop (fun p => p.id == s1.1.id || used.contains p.id) src
    (src s1.2) (s1.2 + 1) 5
  ((s1.1, s2.1), s2.2)

/-- The outer loop of `fetchTwoDissimilarPictures`: accept the attempt's
pair when `arePicturesDissimilar`, otherwise try again with fresh
candidates for both slots; `none` models the final `throw` after the
attempt budget is exhausted. -/
def fetchTwoAux (used : List String) (src : ℕ → Picture) :
    ℕ → ℕ → Option ((Picture × Picture) × ℕ)
  | _, 0 => none
  | i, n + 1 =>
    let a := attemptPair used src i
    if arePicturesDissimilar a.1.1 a.1.2 then some a
    else fetchTwoAux used src a.2 n

/-- Embeds `PictureApiClient.fetchTwoDissimilarPictures(usedPictureIds,
maxAttempts = 10)`, consuming the source stream from cursor 0. -/
def fetchTwoDissimilarPictures (used : List String) (src : ℕ → Picture)
    (maxAttempts : ℕ := 10) : Option ((Picture × Picture) × ℕ) :=
  fetchTwoAux used src 0 maxAttempts

/-! ## Prediction sessions and the store (`types/psychic.ts`,
`predictionStore.ts`) -/

/-- Embeds `PredictionStatus`. -/
inductive PredictionStatus
  | created
  | prediction_made
  | revealed
  | expired
deriving DecidableEq, Repr

/-- Embeds `PsychicPrediction`: the stored session record. Timestamps are
uninterpreted strings supplied by the environment. -/
structure Prediction where
  id : String
  createdAt : String
  updatedAt : String
  status : PredictionStatus
  team1 : String
  team2 : String
  picture1 : Picture
  picture2 : Picture
  team1PictureId : String
  predictionText : Option String := none
  predictionSketchUrl : Option String := none
  predictionTimestamp : Option String := none
  matchedTeam : Option String := none
  confidenceScore : Option ℤ := none
  reasoning : Option String := none
  picture1Analysis : Option String := none
  picture2Analysis : Option String := none
  winningTeam : Option String := none
  revealedPictureId : Option String := none
  revealTimestamp : Option String := none
deriving DecidableEq, Repr

/-- Embeds `PredictionStore.createPrediction`: builds the new record with status
`created`; the generated id and current time are inputs. -/
def createPrediction (id now team1 team2 : String) (p1 p2 : Picture)
    (team1PictureId : String) : Prediction :=
  { id := id, createdAt := now, updatedAt := now,
    status := PredictionStatus.created,
    team1 := team1, team2 := team2, picture1 := p1, picture2 := p2,
    team1PictureId := team1PictureId }

/-- Embeds `x || null` in the store's `ExpressionAttributeValues`: an absent or
empty string is written as `null`. -/
def jsOrNull (o : Option String) : Option String :=
  match o with
  | some s => if s = "" then none else some s
  | none => none

/-- Embeds `PredictionStore.updatePredictionGuess`: an unconditional
`UpdateCommand` setting the verdict fields and status `prediction_made`
in one write. -/
def updatePredictionGuess (p : Prediction) (now : String)
    (text sketch matchedTeam : Option String) (confidence : ℤ)
    (reasoning a1 a2 : Option String) : Prediction :=
  { p with
    status := PredictionStatus.prediction_made,
    predictionText := jsOrNull text,
    predictionSketchUrl := jsOrNull sketch,
    predictionTimestamp := some now,
    matchedTeam := jsOrNull matchedTeam,
    confidenceScore := some confidence,
    reasoning := jsOrNull reasoning,
    picture1Analysis := jsOrNull a1,
    picture2Analysis := jsOrNull a2,
    updatedAt := now }

/-- Embeds `PredictionStore.revealPrediction`: an unconditional `UpdateCommand`
— it carries no `ConditionExpression`, so it applies whatever the current
status is. -/
def revealPrediction (p : Prediction) (now winningTeam revealedPictureId : String) :
    Prediction :=
  { p with
    status := PredictionStatus.revealed,
    winningTeam := some winningTeam,
    revealedPictureId := some revealedPictureId,
    revealTimestamp := some now, updatedAt := now }

/-! ## Serialized views and the HTTP handlers -/

/-- The JSON shape of a serialized prediction in a response body: every
field the per-handler destructuring can omit is optional (`none` = the
key is absent from the JSON, since `JSON.stringify` drops `undefined`).
`revealedPicture` is the extra field some handlers add. -/
structure PredictionView where
  id : String
  createdAt : String
  updatedAt : String
  status : PredictionStatus
  team1 : String
  team2 : String
  picture1 : Option Picture
  picture2 : Option Picture
  team1PictureId : Option String
  predictionText : Option String
  predictionSketchUrl : Option String
  predictionTimestamp : Option String
  matchedTeam : Option String
  confidenceScore : Option ℤ
  reasoning : Option String
  picture1Analysis : Option String
  picture2Analysis : Option String
  winningTeam : Option String
  revealedPictureId : Option String
  revealTimestamp : Option String
  revealedPicture : Option Picture
deriving DecidableEq, Repr

/-- Serialization of a stored record with nothing stripped. -/
def fullView (p : Prediction) : PredictionView :=
  { id := p.id, createdAt := p.createdAt, updatedAt := p.updatedAt,
    status := p.status, team1 := p.team1, team2 := p.team2,
    picture1 := some p.picture1, picture2 := some p.picture2,
    team1PictureId := some p.team1PictureId,
    predictionText := p.predictionText,
    predictionSketchUrl := p.predictionSketchUrl,
    predictionTimestamp := p.predictionTimestamp,
    matchedTeam := p.matchedTeam, confidenceScore := p.confidenceScore,
    reasoning := p.reasoning, picture1Analysis := p.picture1Analysis,
    picture2Analysis := p.picture2Analysis, winningTeam := p.winningTeam,
    revealedPictureId := p.revealedPictureId,
    revealTimestamp := p.revealTimestamp, revealedPicture := none }

/-- Outcome of a handler call: a 2xx body, a 4xx error, or a 5xx error
(a caught exception). -/
inductive ApiOutcome (α : Type)
  | ok (body : α)
  | clientErr (statusCode : ℕ) (msg : String)
  | serverErr (msg : String)
deriving DecidableEq, Repr

/-- Body of `POST /psychic/create` (`CreatePredictionRequest`); an absent
JSON field is modelled as the (equally falsy) empty string. -/
structure CreateRequest where
  team1 : String
  team2 : String

/-- Embeds `POST /psychic/create` (`postPsychicCreate.ts`). Returns the HTTP
outcome together with the stored session (`none` when nothing was
written). The handler fetches a dissimilar pair with an empty
`usedPictureIds` set, assigns `team1PictureId = picture1.id`, stores the
record and returns it in full in the response body. -/
def createHandler (req : CreateRequest) (src : ℕ → Picture)
    (newId now : String) : ApiOutcome PredictionView × Option Prediction :=
  if req.team1 = "" ∨ req.team2 = "" then
    (ApiOutcome.clientErr 400 "Both team1 and team2 are required", none)
  else
    match fetchTwoDissimilarPictures [] src 10 with
    | none => (ApiOutcome.serverErr "Failed to create prediction", none)
    | some ((p1, p2), _) =>
      let pred := createPrediction newId now req.team1 req.team2 p1 p2 p1.id
      (ApiOutcome.ok (fullView pred), some pred)

/-- Embeds `GET /psychic/{predictionId}` (current revision, with the optional
`includePictures` query flag). For `created`/`prediction_made` the
default response omits `picture1`, `picture2` and `team1PictureId`; with
`includePictures=true` only `team1PictureId` is omitted. For `revealed`
both pictures are removed and a single `revealedPicture` is resolved from
`revealedPictureId`. -/
def getHandler (stored : Option Prediction) (includePictures : Bool) :
    ApiOutcome PredictionView :=
  match stored with
  | none => ApiOutcome.clientErr 404 "Prediction not found"
  | some p =>
    if p.status = PredictionStatus.created ∨
        p.status = PredictionStatus.prediction_made then
      if includePictures then
        ApiOutcome.ok { fullView p with team1PictureId := none }
      else
        ApiOutcome.ok { fullView p with
          picture1 := none, picture2 := none, team1PictureId := none }
    else if p.status = PredictionStatus.revealed then
      let rp :=
        match p.revealedPictureId with
        | some r => if r = p.picture1.id then p.picture1 else p.picture2
        | none => p.picture2
      ApiOutcome.ok { fullView p with
        picture1 := none, picture2 := none, revealedPicture := some rp }
    else ApiOutcome.ok (fullView p)

/-- One entry of `GET /psychic` (current revision): a revealed prediction
with a truthy `revealedPictureId` keeps only the resolved
`revealedPicture`; any other entry loses `picture1`, `picture2` and
`team1PictureId`. -/
def listEntryView (p : Prediction) : PredictionView :=
  if p.status = PredictionStatus.revealed ∧ strTruthy p.revealedPictureId then
    let rp :=
      match p.revealedPictureId with
      | some r => if r = p.picture1.id then p.picture1 else p.picture2
      | none => p.picture2
    { fullView p with
      picture1 := none, picture2 := none, revealedPicture := some rp }
  else
    { fullView p with
      picture1 := none, picture2 := none, team1PictureId := none }

/-- Body of `POST /psychic/reveal` (`RevealPredictionRequest`). -/
structure RevealRequest where
  predictionId : String
  winningTeam : String

/-- The `revealedPictureId` computation of `postPsychicReveal.ts`: the
bound picture for the first team's label, its complement for the second
team's label. -/
def computeRevealedPictureId (p : Prediction) (w : String) : String :=
  if w = p.team1 then p.team1PictureId
  else if w = p.team2 then
    (if p.team1PictureId = p.picture1.id then p.picture2.id else p.picture1.id)
  else p.team1PictureId

/-- Embeds `POST /psychic/reveal` (`postPsychicReveal.ts`). Validates presence
of both fields and membership of `winningTeam` in the session's two
labels, then reveals unconditionally — no check of the current status is
performed, and the store write has no precondition. The response carries
the updated record in full. -/
def revealHandler (req : RevealRequest) (stored : Option Prediction)
    (now : String) : ApiOutcome PredictionView × Option Prediction :=
  if req.predictionId = "" ∨ req.winningTeam = "" then
    (ApiOutcome.clientErr 400 "predictionId and winningTeam are required", stored)
  else
    match stored with
    | none => (ApiOutcome.clientErr 404 "Prediction not found", none)
    | some p =>
      if req.winningTeam ≠ p.team1 ∧ req.winningTeam ≠ p.team2 then
        (ApiOutcome.clientErr 400 "winningTeam must be one of the two teams",
         some p)
      else
        let rid := computeRevealedPictureId p req.winningTeam
        let p' := revealPrediction p now req.winningTeam rid
        (ApiOutcome.ok (fullView p'), some p')

/-! ## The adjudicating comparer (`predictionComparer.ts`) and
`POST /psychic/predict` (`postPsychicPredict.ts`) -/

/-- How the external interaction of one `comparePrediction` call went:
either some step threw (image fetch failed, the oracle call failed or
timed out — the surrounding `catch` receives the error message), or the
oracle returned and `responseText` was extracted. -/
inductive OracleOutcome
  | failure (msg : String)
  | response (text : String)
deriving DecidableEq, Repr

/-- The regex `/\{[\s\S]*\}/` applied to the oracle's response text:
greedy, so it matches from the first brace-open to the last brace-close
when one exists at a later position, else fails. -/
def extractJsonBlock (s : String) : Option String :=
  let cs := s.data
  match cs.findIdx? (fun c => c = '{') with
  | none => none
  | some i =>
    match cs.reverse.findIdx? (fun c => c = '}') with
    | none => none
    | some jr =>
      let j := cs.length - 1 - jr
      if i ≤ j then some (String.mk ((cs.drop i).take (j - i + 1))) else none

/-- The fields `JSON.parse` can deliver from the oracle's JSON block;
absent or `null` fields are `none`. -/
structure RawVerdict where
  matchedPictureId : Option String := none
  confidenceScore : Option ℤ := none
  reasoning : Option String := none
  picture1Analysis : Option String := none
  picture2Analysis : Option String := none
deriving DecidableEq, Repr

/-- Return type of `PredictionComparer.comparePrediction`. -/
structure CompareResult where
  matchedPictureId : Option String
  confidenceScore : ℤ
  reasoning : Option String := none
  picture1Analysis : Option String := none
  picture2Analysis : Option String := none
deriving DecidableEq, Repr

/-- Embeds `PredictionComparer.comparePrediction` (current revision, v1.0.3).
`parse` models `JSON.parse` on the extracted block (`.error msg` = the
parse threw and the surrounding `catch` received `msg`). That this Lean
function is total models the contract that the comparer never raises to
its caller: every failure path lands in a degraded result with a null
match, confidence 0 and diagnostic strings. -/
def comparePrediction (text sketch : Option String) (p1 p2 : Picture)
    (outcome : OracleOutcome) (parse : String → Except String RawVerdict) :
    CompareResult :=
  if strTruthy text = false ∧ strTruthy sketch = false then
    { matchedPictureId := none, confidenceScore := 0 }
  else
    match outcome with
    | OracleOutcome.failure msg =>
      { matchedPictureId := none, confidenceScore := 0,
        reasoning := some ("Error: " ++ msg),
        picture1Analysis := some "Error occurred during comparison",
        picture2Analysis := some "Error occurred during comparison" }
    | OracleOutcome.response t =>
      match extractJsonBlock t with
      | none =>
        { matchedPictureId := none, confidenceScore := 0,
          reasoning := some "Error: Could not parse Claude response",
          picture1Analysis := some "Error parsing response",
          picture2Analysis := some "Error parsing response" }
      | some block =>
        match parse block with
        | Except.error msg =>
          { matchedPictureId := none, confidenceScore := 0,
            reasoning := some ("Error: " ++ msg),
            picture1Analysis := some "Error occurred during comparison",
            picture2Analysis := some "Error occurred during comparison" }
        | Except.ok raw =>
          let matched : Option String :=
            if raw.matchedPictureId = some "picture1" then some p1.id
            else if raw.matchedPictureId = some "picture2" then some p2.id
            else none
          { matchedPictureId := matched,
            confidenceScore := raw.confidenceScore.getD 0,
            reasoning := raw.reasoning,
            picture1Analysis := raw.picture1Analysis,
            picture2Analysis := raw.picture2Analysis }

/-- The oracle call failed, timed out, or produced output from which no
structured verdict could be parsed — the hypothesis of the degraded-path
contract. -/
def oracleFailed (outcome : OracleOutcome)
    (parse : String → Except String RawVerdict) : Prop :=
  match outcome with
  | OracleOutcome.failure _ => True
  | OracleOutcome.response t =>
    match extractJsonBlock t with
    | none => True
    | some block => ∃ msg, parse block = Except.error msg

/-- Body of `POST /psychic/predict` (`SubmitPredictionRequest`). -/
structure PredictRequest where
  predictionId : String
  predictionText : Option String := none
  predictionSketchUrl : Option String := none

/-- Embeds `POST /psychic/predict` (current revision, v1.0.4): validates the
request, requires status `created`, calls the comparer, maps the matched
picture id to a team (a truthy id equal to `team1PictureId` means team 1,
any other truthy id team 2), persists verdict and status in one write,
and responds with the updated record minus `picture1`/`picture2`. -/
def predictHandler (req : PredictRequest) (stored : Option Prediction)
    (outcome : OracleOutcome) (parse : String → Except String RawVerdict)
    (now : String) : ApiOutcome PredictionView × Option Prediction :=
  if req.predictionId = "" then
    (ApiOutcome.clientErr 400 "predictionId is required", stored)
  else if strTruthy req.predictionText = false ∧
      strTruthy req.predictionSketchUrl = false then
    (ApiOutcome.clientErr 400
      "At least one of predictionText or predictionSketchUrl is required",
     stored)
  else
    match stored with
    | none => (ApiOutcome.clientErr 404 "Prediction not found", none)
    | some p =>
      if p.status ≠ PredictionStatus.created then
        (ApiOutcome.clientErr 400
          "Prediction has already been submitted or revealed", some p)
      else
        let r := comparePrediction req.predictionText req.predictionSketchUrl
          p.picture1 p.picture2 outcome parse
        let matchedTeam : Option String :=
          match r.matchedPictureId with
          | some mid =>
            if mid = "" then none
            else if mid = p.team1PictureId then some p.team1 else some p.team2
          | none => none
        let p' := updatePredictionGuess p now req.predictionText
          req.predictionSketchUrl matchedTeam r.confidenceScore r.reasoning
          r.picture1Analysis r.picture2Analysis
        (ApiOutcome.ok { fullView p' with picture1 := none, picture2 := none },
         some p')

/-! ## The claim's normalization of the color distance

The spec describes the color criterion as the Euclidean distance
normalized by the maximum possible distance `√(255²·3) = √195075 ≈
441.67`, while `colorDistance` in the source divides by the constant
`441`. The following predicate follows the claim's words (in exact
square-compared form, see `claim_normalization_matches_sqrt_formula`),
for comparison with the source's `colorTooSimilar`. -/

/-- Modelled from the claim's words: `sqrt sq / sqrt (255^2*3) ≥ 3/10`,
i.e. `100 * sq ≥ 9/100 * 195075 * 100 = 1755675`. -/
def claimColorDistanceOk (c1 c2 : String) : Prop :=
  1755675 ≤ 100 * colorDistSq (hexToRgb c1) (hexToRgb c2)

/-! ## Concrete fixtures -/

/-- A black forest picture. -/
def pxA : Picture :=
  { id := "101", url := "https://img/a", avgColor := some "#000000",
    description := some "a dark forest at night" }

/-- A white snow picture, dissimilar from `pxA` on both criteria. -/
def pxB : Picture :=
  { id := "202", url := "https://img/b", avgColor := some "#ffffff",
    description := some "bright snow field" }

/-- A source that yields `pxA` first and `pxB` from then on. -/
def srcAB : ℕ → Picture := fun n => if n = 0 then pxA else pxB

/-- A metadata-free picture (no average color, no description), as the
picture mapper produces when Pexels returns `avg_color: null` and an
empty `alt`. -/
def pxDup : Picture := { id := "777", url := "u7" }

/-- A source that always yields the same metadata-free picture. -/
def srcDup : ℕ → Picture := fun _ => pxDup

/-- A metadata-free picture whose id will be put on the exclusion list. -/
def pxX : Picture := { id := "x1", url := "ux" }

/-- A source that always yields the excluded picture. -/
def srcX : ℕ → Picture := fun _ => pxX

/-- Black average color, no description. -/
def pxC : Picture := { id := "301", url := "u3", avgColor := some "#000000" }

/-- Average color `#840a00`: squared distance from black is
`132² + 10² = 17524`, i.e. `√17524/441 ≈ 0.30018 ≥ 0.3` under the
source's normalization but `√17524/√195075 ≈ 0.29972 < 0.3` under the
claim's. -/
def pxD : Picture := { id := "302", url := "u4", avgColor := some "#840a00" }

/-- A source yielding `pxC` then `pxD`. -/
def srcCD : ℕ → Picture := fun n => if n = 0 then pxC else pxD

/-- First candidate of a rejected first attempt. -/
def pxE : Picture := { id := "401", url := "u5", avgColor := some "#000000" }

/-- Second candidate of the rejected first attempt: distinct id but color
distance `√100/441` from `pxE`, far below 0.3. -/
def pxF : Picture := { id := "402", url := "u6", avgColor := some "#0a0000" }

/-- First candidate of the succeeding second attempt (white). -/
def pxG : Picture := { id := "403", url := "u7", avgColor := some "#ffffff" }

/-- Second candidate of the succeeding second attempt (black). -/
def pxH : Picture := { id := "404", url := "u8", avgColor := some "#000000" }

/-- A source yielding `pxE`, `pxF`, `pxG`, then `pxH` forever. -/
def src8 : ℕ → Picture := fun n =>
  if n = 0 then pxE else if n = 1 then pxF else if n = 2 then pxG else pxH

/-- A freshly created session bound to `pxA`/`pxB`. -/
def sessionAB : Prediction :=
  createPrediction "pred1" "t0" "Vikings" "Packers" pxA pxB "101"

/-- An already revealed session: the Vikings won and the bound black
forest picture `pxA` was revealed. -/
def sessionRevealed : Prediction :=
  { sessionAB with
    status := PredictionStatus.revealed,
    winningTeam := some "Vikings", revealedPictureId := some "101",
    revealTimestamp := some "t1", updatedAt := "t1" }


/-- A predict request with text only. -/
def reqPredict : PredictRequest :=
  { predictionId := "pred1", predictionText := some "a vision of mountains" }

/-- A `JSON.parse` behaviour that always throws. -/
def parseAlwaysThrows : String → Except String RawVerdict :=
  fun _ => Except.error "Unexpected token"

/-! ## Composition helper -/

/-- The picture a client sees after `reveal(w)` on session `p` followed
by `GET /psychic/{id}` with default flags: the `revealedPicture` field of
the get response computed on the stored result of the reveal. -/
def revealThenGetPicture (p : Prediction) (w now : String) : Option Picture :=
  match getHandler (revealHandler { predictionId := p.id, winningTeam := w }
      (some p) now).2 false with
  | ApiOutcome.ok v => v.revealedPicture
  | _ => none

/-! ## Bridge lemmas: the sqrt-free embeddings match the source formulas -/

/-- The sqrt-free embedding of the source's rejection test agrees with
the literal formula `Math.sqrt(sq) / 441 < 0.3` over the reals. -/
theorem colorCheck_matches_source_formula (c1 c2 : String) :
    (Real.sqrt ((colorDistSq (hexToRgb c1) (hexToRgb c2) : ℤ) : ℝ) / 441
        < 3 / 10) ↔
      colorTooSimilar c1 c2 = true := by
  have key : ∀ n : ℤ, 0 ≤ n →
      (Real.sqrt (n : ℝ) / 441 < 3 / 10 ↔ 100 * n < 1750329) := by
    intro n hn
    rw [div_lt_iff (by norm_num : (0 : ℝ) < 441)]
    have h1 : (3 : ℝ) / 10 * 441 = 1323 / 10 := by norm_num
    rw [h1, Real.sqrt_lt' (by norm_num : (0 : ℝ) < 1323 / 10)]
    constructor
    · intro h
      have h2 : (100 : ℝ) * (n : ℝ) < 1750329 := by nlinarith
      exact_mod_cast h2
    · intro h
      have h2 : (100 : ℝ) * (n : ℝ) < 1750329 := by exact_mod_cast h
      nlinarith
  have hn : 0 ≤ colorDistSq (hexToRgb c1) (hexToRgb c2) := by
    unfold colorDistSq; positivity
  rw [key _ hn, colorTooSimilar, decide_eq_true_iff]

/-- The sqrt-free form of `claimColorDistanceOk` agrees with the claim's
literal formula: Euclidean distance normalized by `√(255²·3)`, at least
`0.3`. -/
theorem claim_normalization_matches_sqrt_formula (c1 c2 : String) :
    (3 / 10 ≤ Real.sqrt ((colorDistSq (hexToRgb c1) (hexToRgb c2) : ℤ) : ℝ)
        / Real.sqrt ((255 : ℝ) ^ 2 * 3)) ↔
      claimColorDistanceOk c1 c2 := by
  have hroot : Real.sqrt ((255 : ℝ) ^ 2 * 3) = 255 * Real.sqrt 3 := by
    rw [show ((255 : ℝ) ^ 2 * 3) = (255 : ℝ) ^ 2 * 3 from rfl,
      Real.sqrt_mul (by positivity), Real.sqrt_sq (by norm_num)]
  have h3 : (0 : ℝ) < Real.sqrt 3 := Real.sqrt_pos.mpr (by norm_num)
  have hpos : (0 : ℝ) < Real.sqrt ((255 : ℝ) ^ 2 * 3) := by
    rw [hroot]; positivity
  set n : ℤ := colorDistSq (hexToRgb c1) (hexToRgb c2) with hdef
  have hn : 0 ≤ n := by rw [hdef]; unfold colorDistSq; positivity
  rw [le_div_iff hpos]
  constructor
  · intro h
    have hsq : ((3 : ℝ) / 10 * Real.sqrt ((255 : ℝ) ^ 2 * 3)) ^ 2 ≤
        Real.sqrt ((n : ℤ) : ℝ) ^ 2 := by
      apply sq_le_sq' _ h
      have : (0 : ℝ) ≤ Real.sqrt ((n : ℤ) : ℝ) := Real.sqrt_nonneg _
      nlinarith [mul_pos (by norm_num : (0 : ℝ) < 3 / 10) hpos]
    rw [Real.sq_sqrt (by exact_mod_cast hn), mul_pow, div_pow,
      Real.sq_sqrt (by positivity)] at hsq
    have h2 : (1755675 : ℝ) ≤ 100 * (n : ℝ) := by nlinarith
    unfold claimColorDistanceOk
    rw [← hdef]
    exact_mod_cast h2
  · intro h
    unfold claimColorDistanceOk at h
    rw [← hdef] at h
    have h2 : (1755675 : ℝ) ≤ 100 * (n : ℝ) := by exact_mod_cast h
    have hle : ((3 : ℝ) / 10 * Real.sqrt ((255 : ℝ) ^ 2 * 3)) ^ 2 ≤
        ((n : ℤ) : ℝ) := by
      rw [mul_pow, div_pow, Real.sq_sqrt (by positivity : (0 : ℝ) ≤ (255:ℝ)^2*3)]
      nlinarith
    calc (3 : ℝ) / 10 * Real.sqrt ((255 : ℝ) ^ 2 * 3)
        = Real.sqrt (((3 : ℝ) / 10 * Real.sqrt ((255 : ℝ) ^ 2 * 3)) ^ 2) := by
          rw [Real.sqrt_sq (by positivity)]
      _ ≤ Real.sqrt ((n : ℤ) : ℝ) := Real.sqrt_le_sqrt hle

/-- Lemma: `splitAtSpaces` never returns the empty list. -/
theorem splitAtSpaces_ne_nil : ∀ cs : List Char, splitAtSpaces cs ≠ [] := by
  intro cs
  induction cs with
  | nil => simp [splitAtSpaces]
  | cons c cs ih =>
    by_cases hsp : jsIsSpace c = true
    · simp [splitAtSpaces, hsp]
    · rw [splitAtSpaces, if_neg hsp]
      cases h : splitAtSpaces cs with
      | nil => simp
      | cons t ts => simp

/-- A JS whitespace split always has at least one element (JS
`"".split(/\s+/)` is `[""]`). -/
theorem jsSplitWhitespace_ne_nil (s : String) : jsSplitWhitespace s ≠ [] := by
  unfold jsSplitWhitespace
  cases h : (splitAtSpaces s.data).map (fun t => String.mk t) with
  | nil =>
    exfalso
    rw [List.map_eq_nil] at h
    exact splitAtSpaces_ne_nil s.data h
  | cons t ts => simp

/-- The token union of two descriptions is never empty. -/
theorem unionCount_pos (d1 d2 : String) : 0 < unionCount d1 d2 := by
  unfold unionCount
  rw [List.length_pos]
  simp only [ne_eq, List.dedup_eq_nil, List.append_eq_nil]
  intro hand
  exact jsSplitWhitespace_ne_nil _ hand.1

/-- The division-free embedding of the source's rejection test agrees
with the literal formula `similarity > 0.5` where `similarity =
intersection.size / union.size`. -/
theorem lexicalCheck_matches_source_formula (d1 d2 : String) :
    lexicalTooSimilar d1 d2 = true ↔ 1 / 2 < lexicalSimilarity d1 d2 := by
  unfold lexicalTooSimilar lexicalSimilarity
  rw [decide_eq_true_iff]
  have hu : 0 < unionCount d1 d2 := unionCount_pos d1 d2
  have huQ : (0 : ℚ) < (unionCount d1 d2 : ℚ) := by exact_mod_cast hu
  rw [lt_div_iff huQ]
  constructor
  · intro h
    have h2 : ((unionCount d1 d2 : ℚ)) < 2 * (interCount d1 d2 : ℚ) := by
      exact_mod_cast h
    linarith
  · intro h
    have h2 : ((unionCount d1 d2 : ℚ)) < 2 * (interCount d1 d2 : ℚ) := by
      linarith
    exact_mod_cast h2

/-! ## Selector lemmas -/

/-- If the candidate an inner resampling loop returns is still bad, then
the initial candidate and every refetched one were bad: the loop only
ends with a bad candidate by exhausting its retry budget on bad
candidates. -/
theorem retryLoop_bad_all (bad : Picture → Bool) (src : ℕ → Picture) :
    ∀ (fuel : ℕ) (p : Picture) (i : ℕ),
      bad (retryLoop bad src p i fuel).1 = true →
      bad p = true ∧ ∀ k, k < fuel → bad (src (i + k)) = true := by
  intro fuel
  induction fuel with
  | zero =>
    intro p i h
    exact ⟨h, fun k hk => absurd hk (by omega)⟩
  | succ r ih =>
    intro p i h
    by_cases hb : bad p = true
    · rw [retryLoop, if_pos hb] at h
      obtain ⟨h0, hall⟩ := ih (src i) (i + 1) h
      refine ⟨hb, fun k hk => ?_⟩
      match k with
      | 0 => simpa using h0
      | k + 1 =>
        have := hall k (by omega)
        have harith : i + 1 + k = i + (k + 1) := by omega
        rwa [harith] at this
    · rw [retryLoop, if_neg hb] at h
      exact absurd h hb

/-- If the second slot of an attempt (with no exclusions) ends on a
candidate duplicating the first slot's id, the source produced six
consecutive candidates with that id: the initial fetch and all five
resamples. -/
theorem attemptPair_duplicate (src : ℕ → Picture) (i : ℕ) :
    ((attemptPair [] src i).1.2).id = ((attemptPair [] src i).1.1).id →
    ∃ j, ∀ k, k ≤ 5 → (src (j + k)).id = ((attemptPair [] src i).1.1).id := by
  intro h
  unfold attemptPair at *
  set s1 := retryLoop (fun p => List.contains [] p.id) src (src i) (i + 1) 5
    with hs1
  set bad2 : Picture → Bool :=
    fun p => p.id == s1.1.id || List.contains [] p.id with hbad2
  set s2 := retryLoop bad2 src (src s1.2) (s1.2 + 1) 5 with hs2
  have hbadEq : ∀ p : Picture, bad2 p = true ↔ p.id = s1.1.id := by
    intro p
    rw [hbad2]
    simp [List.contains]
  have hb : bad2 s2.1 = true := (hbadEq s2.1).mpr h
  rw [hs2] at hb
  obtain ⟨h0, hall⟩ := retryLoop_bad_all bad2 src 5 (src s1.2) (s1.2 + 1) hb
  refine ⟨s1.2, fun k hk => ?_⟩
  match k with
  | 0 => simpa using (hbadEq (src s1.2)).mp h0
  | k + 1 =>
    have := (hbadEq (src (s1.2 + 1 + k))).mp (hall k (by omega))
    have harith : s1.2 + 1 + k = s1.2 + (k + 1) := by omega
    rwa [harith] at this

/-- Lifts `attemptPair_duplicate` through the outer attempt loop. -/
theorem fetchTwoAux_duplicate (src : ℕ → Picture) :
    ∀ (n i : ℕ) (q1 q2 : Picture) (i2 : ℕ),
      fetchTwoAux [] src i n = some ((q1, q2), i2) →
      q1.id = q2.id →
      ∃ j, ∀ k, k ≤ 5 → (src (j + k)).id = q1.id := by
  intro n
  induction n with
  | zero => intro i q1 q2 i2 h; simp [fetchTwoAux] at h
  | succ m ih =>
    intro i q1 q2 i2 h hdup
    rw [fetchTwoAux] at h
    by_cases hacc :
        arePicturesDissimilar (attemptPair [] src i).1.1
          (attemptPair [] src i).1.2 = true
    · rw [if_pos hacc] at h
      have h1 : (attemptPair [] src i).1.1 = q1 := by
        have := congrArg (fun o => o.map (fun a => a.1.1)) h
        simpa using this
      have h2 : (attemptPair [] src i).1.2 = q2 := by
        have := congrArg (fun o => o.map (fun a => a.1.2)) h
        simpa using this
      obtain ⟨j, hj⟩ := attemptPair_duplicate src i (by rw [h1, h2, hdup])
      exact ⟨j, fun k hk => by rw [hj k hk, h1]⟩
    · rw [if_neg hacc] at h
      exact ih _ _ _ _ h hdup

/-- C10: the selector's per-slot exclusion is best-effort only. With the
exclusion list `["x1"]` and a source that always returns the
(metadata-free) picture with id `"x1"`, each slot gives up after its five
resamples and `fetchTwoDissimilarPictures` returns a pair both of whose
components carry the excluded id. -/
theorem excluded_id_can_be_returned :
    fetchTwoDissimilarPictures ["x1"] srcX 10 = some ((pxX, pxX), 12)
    ∧ List.contains ["x1"] pxX.id = true :=
  ⟨rfl, rfl⟩

/-- C6 counterexample: a source that repeatedly returns one picture with
no color and no description metadata makes the selector return a pair
with equal ids (the second slot exhausts its five resamples and the
dissimilarity check passes because both criteria are missing), and the
create operation stores that session: `pictureA.id ≠ pictureB.id` fails. -/
theorem duplicate_pair_cex :
    fetchTwoDissimilarPictures [] srcDup 10 = some ((pxDup, pxDup), 7)
    ∧ (createHandler { team1 := "V", team2 := "P" } srcDup "pred3" "t0").2 =
        some (createPrediction "pred3" "t0" "V" "P" pxDup pxDup "777")
    ∧ (createPrediction "pred3" "t0" "V" "P" pxDup pxDup "777").picture1.id =
        (createPrediction "pred3" "t0" "V" "P" pxDup pxDup "777").picture2.id :=
  ⟨rfl, rfl, rfl⟩

/-- C6 (amended): every stored session has `bindingPictureId =
pictureA.id` (hence in the id set); id-distinctness is only best-effort —
when it fails, the source must have yielded six consecutive candidates
with `pictureA`'s id for the second slot. -/
theorem binding_in_ids_distinct_best_effort :
    ∀ (req : CreateRequest) (src : ℕ → Picture) (newId now : String)
      (p : Prediction),
      (createHandler req src newId now).2 = some p →
      p.team1PictureId = p.picture1.id
      ∧ (p.picture1.id = p.picture2.id →
          ∃ j, ∀ k, k ≤ 5 → (src (j + k)).id = p.picture1.id) := by
  intro req src newId now p h
  unfold createHandler at h
  split at h
  · simp at h
  · rename_i hvalid
    split at h
    · simp at h
    · rename_i q1 q2 i2 hfetch
      simp only at h
      have hp : p = createPrediction newId now req.team1 req.team2 q1 q2 q1.id := by
        cases h; rfl
      subst hp
      refine ⟨rfl, fun hdup => ?_⟩
      have hdup2 : q1.id = q2.id := hdup
      exact fetchTwoAux_duplicate src 10 0 q1 q2 i2 hfetch hdup2

/-- Witness for `binding_in_ids_distinct_best_effort` at the constant
metadata-free source. -/
theorem binding_in_ids_distinct_best_effort_witness :
    (createHandler { team1 := "V", team2 := "P" } srcDup "w6" "t0").2 =
      some (createPrediction "w6" "t0" "V" "P" pxDup pxDup "777")
    ∧ ((createPrediction "w6" "t0" "V" "P" pxDup pxDup "777").team1PictureId =
        (createPrediction "w6" "t0" "V" "P" pxDup pxDup "777").picture1.id
      ∧ ((createPrediction "w6" "t0" "V" "P" pxDup pxDup "777").picture1.id =
          (createPrediction "w6" "t0" "V" "P" pxDup pxDup "777").picture2.id →
        ∃ j, ∀ k, k ≤ 5 → (srcDup (j + k)).id =
          (createPrediction "w6" "t0" "V" "P" pxDup pxDup "777").picture1.id)) :=
  ⟨rfl, binding_in_ids_distinct_best_effort { team1 := "V", team2 := "P" }
    srcDup "w6" "t0" (createPrediction "w6" "t0" "V" "P" pxDup pxDup "777")
    rfl⟩

/-- C8 counterexample: with a source yielding `pxE, pxF, pxG, pxH, ...`,
the first attempt's pair `(pxE, pxF)` is rejected (their colors are too
close), and the selector then returns `(pxG, pxH)`: the first candidate
of the accepted attempt is `pxG ≠ pxE`, so the rejected attempt's first
candidate was not kept. -/
theorem rejection_discards_first_cex :
    attemptPair [] src8 0 = ((pxE, pxF), 2)
    ∧ arePicturesDissimilar pxE pxF = false
    ∧ fetchTwoDissimilarPictures [] src8 10 = some ((pxG, pxH), 4)
    ∧ pxG ≠ pxE :=
  ⟨rfl, by decide, rfl, by decide⟩

/-- C8 (amended): when the attempt's pair is rejected by the
dissimilarity check, the outer loop abandons **both** candidates and the
next attempt refetches both slots from the stream; when the attempt
budget reaches zero the selector fails. -/
theorem rejection_resamples_both_slots :
    ∀ (used : List String) (src : ℕ → Picture) (i n : ℕ),
      arePicturesDissimilar (attemptPair used src i).1.1
        (attemptPair used src i).1.2 = false →
      fetchTwoAux used src i (n + 1) =
        fetchTwoAux used src (attemptPair used src i).2 n
      ∧ fetchTwoAux used src i 0 = none := by
  intro used src i n h
  refine ⟨?_, rfl⟩
  rw [fetchTwoAux]
  simp only [h]
  rfl

/-- Witness for `rejection_resamples_both_slots` at the `src8` stream. -/
theorem rejection_resamples_both_slots_witness :
    arePicturesDissimilar (attemptPair [] src8 0).1.1
      (attemptPair [] src8 0).1.2 = false
    ∧ (fetchTwoAux [] src8 0 (9 + 1) =
        fetchTwoAux [] src8 (attemptPair [] src8 0).2 9
      ∧ fetchTwoAux [] src8 0 0 = none) :=
  ⟨by decide, rejection_resamples_both_slots [] src8 0 9 (by decide)⟩

/-- C5 counterexample: the pair `(pxC, pxD)` (black vs `#840a00`, no
descriptions) is accepted by the selector — the source normalizes the
color distance by `441`, giving `√17524/441 ≈ 0.30018 ≥ 0.3` — but under
the claim's normalization by `√(255²·3)` the distance is
`√17524/√195075 ≈ 0.29972 < 0.3`, and the color data is present on both
pictures. -/
theorem dissimilarity_threshold_cex :
    fetchTwoDissimilarPictures [] srcCD 10 = some ((pxC, pxD), 2)
    ∧ arePicturesDissimilar pxC pxD = true
    ∧ pxC.avgColor = some "#000000"
    ∧ pxD.avgColor = some "#840a00"
    ∧ ¬ claimColorDistanceOk "#000000" "#840a00" :=
  ⟨rfl, rfl, rfl, rfl, by unfold claimColorDistanceOk; decide⟩

/-- C5 (amended): every pair the selector's check accepts satisfies the
source's color criterion — distance at least 0.3 under the source's
normalization by `441` (square-compared form; cf.
`colorCheck_matches_source_formula`) — or has color data missing
(absent or empty) on a side, and word-overlap similarity at most 0.5 or a
missing description; a missing criterion is passed through, never
reinterpreted. -/
theorem accepted_pairs_meet_code_thresholds :
    ∀ p1 p2 : Picture, arePicturesDissimilar p1 p2 = true →
      (∀ c1 c2 : String, p1.avgColor = some c1 → p2.avgColor = some c2 →
        c1 ≠ "" → c2 ≠ "" →
        1750329 ≤ 100 * colorDistSq (hexToRgb c1) (hexToRgb c2))
      ∧ (∀ d1 d2 : String, p1.description = some d1 →
        p2.description = some d2 → d1 ≠ "" → d2 ≠ "" →
        lexicalSimilarity d1 d2 ≤ 1 / 2) := by
  intro p1 p2 h
  rw [arePicturesDissimilar, Bool.and_eq_true, Bool.not_eq_true',
    Bool.not_eq_true'] at h
  obtain ⟨hcolor, hdesc⟩ := h
  constructor
  · intro c1 c2 hc1 hc2 hne1 hne2
    simp only [colorRejected, hc1, hc2] at hcolor
    rw [if_pos ⟨hne1, hne2⟩] at hcolor
    unfold colorTooSimilar at hcolor
    rw [decide_eq_false_iff_not] at hcolor
    omega
  · intro d1 d2 hd1 hd2 hne1 hne2
    simp only [descRejected, hd1, hd2] at hdesc
    rw [if_pos ⟨hne1, hne2⟩] at hdesc
    have hiff := lexicalCheck_matches_source_formula d1 d2
    rw [← Bool.not_eq_true, hiff] at hdesc
    exact le_of_not_lt hdesc

/-- Witness for `accepted_pairs_meet_code_thresholds` at the accepted
pair `(pxA, pxB)`. -/
theorem accepted_pairs_meet_code_thresholds_witness :
    arePicturesDissimilar pxA pxB = true
    ∧ 1750329 ≤ 100 * colorDistSq (hexToRgb "#000000") (hexToRgb "#ffffff")
    ∧ lexicalSimilarity "a dark forest at night" "bright snow field" ≤ 1 / 2 :=
  ⟨by decide,
   (accepted_pairs_meet_code_thresholds pxA pxB (by decide)).1 "#000000"
     "#ffffff" rfl rfl (by decide) (by decide),
   (accepted_pairs_meet_code_thresholds pxA pxB (by decide)).2
     "a dark forest at night" "bright snow field" rfl rfl (by decide)
     (by decide)⟩

/-! ## Create, reveal and projection lemmas -/

/-- Shape of a successful create: the stored session is built by
`createPrediction` from a fetched pair, with the binding set to the first
picture's id. -/
theorem createHandler_stored_eq (req : CreateRequest) (src : ℕ → Picture)
    (newId now : String) (p : Prediction)
    (h : (createHandler req src newId now).2 = some p) :
    ∃ q1 q2 i2, fetchTwoDissimilarPictures [] src 10 = some ((q1, q2), i2)
      ∧ p = createPrediction newId now req.team1 req.team2 q1 q2 q1.id := by
  unfold createHandler at h
  split at h
  · simp at h
  · split at h
    · simp at h
    · rename_i q1 q2 i2 hfetch
      simp only at h
      exact ⟨q1, q2, i2, hfetch, by cases h; rfl⟩

/-- Shape of a reveal that passes validation: the handler recomputes the
revealed picture id and stores the updated record, with no status check
anywhere on the path. -/
theorem revealHandler_ok (p : Prediction) (w now : String)
    (hid : p.id ≠ "") (hw : w ≠ "") (hmem : w = p.team1 ∨ w = p.team2) :
    revealHandler { predictionId := p.id, winningTeam := w } (some p) now =
      (ApiOutcome.ok (fullView (revealPrediction p now w
          (computeRevealedPictureId p w))),
       some (revealPrediction p now w (computeRevealedPictureId p w))) := by
  have h1 : ¬(p.id = "" ∨ w = "") := by
    intro hc
    rcases hc with hc | hc
    · exact hid hc
    · exact hw hc
  have h2 : ¬(w ≠ p.team1 ∧ w ≠ p.team2) := by
    rcases hmem with h | h
    · exact fun hc => hc.1 h
    · exact fun hc => hc.2 h
  simp only [revealHandler, if_neg h1, if_neg h2]

/-- C1 (code bug in the create handler): the create response returns the
stored record in full — `picture1`, `picture2` and `team1PictureId`
included — although the repository's own README and SKILL.md state that
pictures are never returned before reveal; the get response with
`includePictures=false` and the list entry do strip all three fields on
the same session. -/
theorem create_response_leaks_hidden_fields :
    (createHandler { team1 := "Vikings", team2 := "Packers" } srcAB "pred1"
        "t0").1 = ApiOutcome.ok (fullView sessionAB)
    ∧ (fullView sessionAB).picture1 = some pxA
    ∧ (fullView sessionAB).picture2 = some pxB
    ∧ (fullView sessionAB).team1PictureId = some "101"
    ∧ getHandler (some sessionAB) false =
        ApiOutcome.ok { fullView sessionAB with
          picture1 := none, picture2 := none, team1PictureId := none }
    ∧ listEntryView sessionAB =
        { fullView sessionAB with
          picture1 := none, picture2 := none, team1PictureId := none } :=
  ⟨rfl, rfl, rfl, rfl, rfl, rfl⟩

/-- C2 counterexample: creation performs no coin flip on the binding —
for the concrete created session the binding equals `pictureA`'s id and
differs from `pictureB`'s id, and (`binding_always_first_picture`) no
source behaviour can make it `pictureB`'s id, because `team1PictureId`
is assigned as `picture1.id` unconditionally. -/
theorem binding_never_second_picture_cex :
    (createHandler { team1 := "Vikings", team2 := "Packers" } srcAB "pred1"
        "t0").2 = some sessionAB
    ∧ sessionAB.team1PictureId = sessionAB.picture1.id
    ∧ sessionAB.team1PictureId ≠ sessionAB.picture2.id :=
  ⟨rfl, rfl, by decide⟩

/-- C2 (amended): the create operation assigns `bindingPictureId`
deterministically to the first fetched picture (`team1PictureId =
picture1.id` for every stored session and every source behaviour); the
only randomness is in which pictures the source yields. -/
theorem binding_always_first_picture :
    ∀ (req : CreateRequest) (src : ℕ → Picture) (newId now : String)
      (p : Prediction),
      (createHandler req src newId now).2 = some p →
      p.team1PictureId = p.picture1.id := by
  intro req src newId now p h
  obtain ⟨q1, q2, i2, hfetch, hp⟩ := createHandler_stored_eq req src newId now p h
  subst hp
  rfl

/-- Witness for `binding_always_first_picture`. -/
theorem binding_always_first_picture_witness :
    (createHandler { team1 := "V", team2 := "P" } srcAB "w2" "t0").2 =
      some (createPrediction "w2" "t0" "V" "P" pxA pxB "101")
    ∧ (createPrediction "w2" "t0" "V" "P" pxA pxB "101").team1PictureId =
      (createPrediction "w2" "t0" "V" "P" pxA pxB "101").picture1.id :=
  ⟨rfl, binding_always_first_picture { team1 := "V", team2 := "P" } srcAB
    "w2" "t0" (createPrediction "w2" "t0" "V" "P" pxA pxB "101") rfl⟩

/-- C7 counterexample: two equal labels are not rejected — the create
handler only checks truthiness of each label, so `create("Vikings",
"Vikings")` succeeds and stores a session. -/
theorem equal_labels_accepted_cex :
    (createHandler { team1 := "Vikings", team2 := "Vikings" } srcAB "pred2"
        "t0").1 = ApiOutcome.ok (fullView
          (createPrediction "pred2" "t0" "Vikings" "Vikings" pxA pxB "101"))
    ∧ (createHandler { team1 := "Vikings", team2 := "Vikings" } srcAB "pred2"
        "t0").2 =
      some (createPrediction "pred2" "t0" "Vikings" "Vikings" pxA pxB "101") :=
  ⟨rfl, rfl⟩

/-- C7 (amended): the create operation requires both labels to be
non-empty (truthy) and fails immediately with a 400 validation error and
no store write when either is empty; it does **not** require the labels
to be distinct. -/
theorem empty_labels_rejected_no_write :
    ∀ (req : CreateRequest) (src : ℕ → Picture) (newId now : String),
      req.team1 = "" ∨ req.team2 = "" →
      createHandler req src newId now =
        (ApiOutcome.clientErr 400 "Both team1 and team2 are required",
         none) := by
  intro req src newId now h
  unfold createHandler
  rw [if_pos h]

/-- Witness for `empty_labels_rejected_no_write`. -/
theorem empty_labels_rejected_no_write_witness :
    (("" : String) = "" ∨ ("P" : String) = "")
    ∧ createHandler { team1 := "", team2 := "P" } srcAB "w7" "t0" =
      (ApiOutcome.clientErr 400 "Both team1 and team2 are required", none) :=
  ⟨Or.inl rfl, empty_labels_rejected_no_write { team1 := "", team2 := "P" }
    srcAB "w7" "t0" (Or.inl rfl)⟩

/-- C3 counterexample: on a session that is already `revealed` with the
Vikings as winner, a second reveal naming the Packers is accepted (no
`InvalidState`), and it overwrites both `winningTeam` and
`revealedPictureId` — neither branch of the claim (reject without
mutation, or idempotent identical result) holds, and the write is not
conditional on the pre-transition status. -/
theorem second_reveal_overwrites_cex :
    sessionRevealed.status = PredictionStatus.revealed
    ∧ (revealHandler { predictionId := "pred1", winningTeam := "Packers" }
        (some sessionRevealed) "t2").1 =
      ApiOutcome.ok (fullView
        (revealPrediction sessionRevealed "t2" "Packers" "202"))
    ∧ (revealHandler { predictionId := "pred1", winningTeam := "Packers" }
        (some sessionRevealed) "t2").2 =
      some (revealPrediction sessionRevealed "t2" "Packers" "202")
    ∧ (revealPrediction sessionRevealed "t2" "Packers" "202").winningTeam ≠
      sessionRevealed.winningTeam
    ∧ (revealPrediction sessionRevealed "t2" "Packers" "202").revealedPictureId
      ≠ sessionRevealed.revealedPictureId :=
  ⟨rfl, rfl, rfl, by decide, by decide⟩

/-- C3 (amended): a further reveal on an already revealed session is
re-executed unconditionally: the handler performs no status check and the
store write has no precondition, so every validating reveal succeeds and
records its own `winningTeam` (overwriting the previous winner when the
labels differ); at-most-one-success does not hold. -/
theorem reveal_unconditional_rerun :
    ∀ (p : Prediction) (w now : String),
      p.status = PredictionStatus.revealed →
      p.id ≠ "" → w ≠ "" → (w = p.team1 ∨ w = p.team2) →
      revealHandler { predictionId := p.id, winningTeam := w } (some p) now =
        (ApiOutcome.ok (fullView (revealPrediction p now w
            (computeRevealedPictureId p w))),
         some (revealPrediction p now w (computeRevealedPictureId p w)))
      ∧ (revealPrediction p now w
          (computeRevealedPictureId p w)).winningTeam = some w
      ∧ (revealPrediction p now w
          (computeRevealedPictureId p w)).status =
        PredictionStatus.revealed := by
  intro p w now _hst hid hw hmem
  exact ⟨revealHandler_ok p w now hid hw hmem, rfl, rfl⟩

/-- Witness for `reveal_unconditional_rerun` on the concrete revealed
session. -/
theorem reveal_unconditional_rerun_witness :
    sessionRevealed.status = PredictionStatus.revealed
    ∧ sessionRevealed.id ≠ ""
    ∧ ("Vikings" : String) ≠ ""
    ∧ ("Vikings" = sessionRevealed.team1 ∨ "Vikings" = sessionRevealed.team2)
    ∧ (revealHandler
        { predictionId := sessionRevealed.id, winningTeam := "Vikings" }
        (some sessionRevealed) "t3" =
        (ApiOutcome.ok (fullView (revealPrediction sessionRevealed "t3"
            "Vikings" (computeRevealedPictureId sessionRevealed "Vikings"))),
         some (revealPrediction sessionRevealed "t3" "Vikings"
            (computeRevealedPictureId sessionRevealed "Vikings")))
      ∧ (revealPrediction sessionRevealed "t3" "Vikings"
          (computeRevealedPictureId sessionRevealed "Vikings")).winningTeam =
        some "Vikings"
      ∧ (revealPrediction sessionRevealed "t3" "Vikings"
          (computeRevealedPictureId sessionRevealed "Vikings")).status =
        PredictionStatus.revealed) :=
  ⟨rfl, by decide, by decide, Or.inl rfl,
   reveal_unconditional_rerun sessionRevealed "Vikings" "t3" rfl (by decide)
     (by decide) (Or.inl rfl)⟩

/-- C4: exhaustively over both bindings, revealing a winning label and
then reading the session resolves `revealedPicture` to the picture bound
to that label: the bound picture for `labelA`-wins when the binding is
`pictureA`, its complement for `labelB`-wins, and symmetrically. -/
theorem reveal_resolves_bound_picture :
    ∀ (p : Prediction) (now : String),
      p.id ≠ "" → p.team1 ≠ "" → p.team2 ≠ "" → p.team1 ≠ p.team2 →
      p.picture1.id ≠ p.picture2.id →
      (p.team1PictureId = p.picture1.id →
        revealThenGetPicture p p.team1 now = some p.picture1
        ∧ revealThenGetPicture p p.team2 now = some p.picture2)
      ∧ (p.team1PictureId = p.picture2.id →
        revealThenGetPicture p p.team1 now = some p.picture2
        ∧ revealThenGetPicture p p.team2 now = some p.picture1) := by
  intro p now hid h1 h2 hteams hpics
  have key : ∀ w, (w = p.team1 ∨ w = p.team2) →
      revealThenGetPicture p w now =
        some (if computeRevealedPictureId p w = p.picture1.id
          then p.picture1 else p.picture2) := by
    intro w hmem
    have hw : w ≠ "" := by
      rcases hmem with h | h
      · rw [h]; exact h1
      · rw [h]; exact h2
    unfold revealThenGetPicture
    rw [revealHandler_ok p w now hid hw hmem]
    simp [getHandler, revealPrediction]
  constructor
  · intro hbind
    constructor
    · rw [key p.team1 (Or.inl rfl)]
      have hrid : computeRevealedPictureId p p.team1 = p.picture1.id := by
        unfold computeRevealedPictureId
        rw [if_pos rfl]
        exact hbind
      rw [hrid, if_pos rfl]
    · rw [key p.team2 (Or.inr rfl)]
      have hrid : computeRevealedPictureId p p.team2 = p.picture2.id := by
        unfold computeRevealedPictureId
        rw [if_neg (Ne.symm hteams), if_pos rfl, if_pos hbind]
      rw [hrid, if_neg (Ne.symm hpics)]
  · intro hbind
    constructor
    · rw [key p.team1 (Or.inl rfl)]
      have hrid : computeRevealedPictureId p p.team1 = p.picture2.id := by
        unfold computeRevealedPictureId
        rw [if_pos rfl]
        exact hbind
      rw [hrid, if_neg (Ne.symm hpics)]
    · rw [key p.team2 (Or.inr rfl)]
      have hne : p.team1PictureId ≠ p.picture1.id := by
        rw [hbind]
        exact Ne.symm hpics
      have hrid : computeRevealedPictureId p p.team2 = p.picture1.id := by
        unfold computeRevealedPictureId
        rw [if_neg (Ne.symm hteams), if_pos rfl, if_neg hne]
      rw [hrid, if_pos rfl]

/-- Witness for `reveal_resolves_bound_picture` on the concrete session
(whose binding is `pictureA`). -/
theorem reveal_resolves_bound_picture_witness :
    sessionAB.id ≠ "" ∧ sessionAB.team1 ≠ "" ∧ sessionAB.team2 ≠ ""
    ∧ sessionAB.team1 ≠ sessionAB.team2
    ∧ sessionAB.picture1.id ≠ sessionAB.picture2.id
    ∧ ((sessionAB.team1PictureId = sessionAB.picture1.id →
        revealThenGetPicture sessionAB sessionAB.team1 "t9" =
          some sessionAB.picture1
        ∧ revealThenGetPicture sessionAB sessionAB.team2 "t9" =
          some sessionAB.picture2)
      ∧ (sessionAB.team1PictureId = sessionAB.picture2.id →
        revealThenGetPicture sessionAB sessionAB.team1 "t9" =
          some sessionAB.picture2
        ∧ revealThenGetPicture sessionAB sessionAB.team2 "t9" =
          some sessionAB.picture1)) :=
  ⟨by decide, by decide, by decide, by decide, by decide,
   reveal_resolves_bound_picture sessionAB "t9" (by decide) (by decide)
     (by decide) (by decide) (by decide)⟩

/-! ## Comparer lemmas -/

/-- Every failing-oracle path of the comparer (given some prediction
content) returns the degraded verdict: no matched picture, confidence 0,
and diagnostic reasoning and per-picture analyses. -/
theorem comparePrediction_degraded (text sketch : Option String)
    (p1 p2 : Picture) (outcome : OracleOutcome)
    (parse : String → Except String RawVerdict)
    (htruthy : strTruthy text = true ∨ strTruthy sketch = true)
    (hfail : oracleFailed outcome parse) :
    ∃ msg a1 a2,
      comparePrediction text sketch p1 p2 outcome parse =
        { matchedPictureId := none, confidenceScore := 0,
          reasoning := some msg, picture1Analysis := some a1,
          picture2Analysis := some a2 } := by
  unfold comparePrediction
  have hnot : ¬(strTruthy text = false ∧ strTruthy sketch = false) := by
    rcases htruthy with h | h
    · exact fun hc => by rw [h] at hc; exact absurd hc.1 (by simp)
    · exact fun hc => by rw [h] at hc; exact absurd hc.2 (by simp)
  rw [if_neg hnot]
  unfold oracleFailed at hfail
  cases outcome with
  | failure msg => exact ⟨_, _, _, rfl⟩
  | response t =>
    simp only at hfail ⊢
    cases hj : extractJsonBlock t with
    | none => exact ⟨_, _, _, rfl⟩
    | some block =>
      rw [hj] at hfail
      have hfail2 : ∃ m, parse block = Except.error m := hfail
      obtain ⟨msg, hmsg⟩ := hfail2
      exact ⟨"Error: " ++ msg, "Error occurred during comparison",
        "Error occurred during comparison", by simp [hmsg]⟩

/-- C9: when the oracle call fails, times out, or yields output from
which no verdict can be parsed, the comparer returns the degraded verdict
(null match, confidence 0, diagnostic reasoning and analyses) without
raising, and the owning predict transition still completes: status
advances to `prediction_made` with the degraded verdict recorded. -/
theorem oracle_failure_degraded_verdict :
    ∀ (req : PredictRequest) (p : Prediction) (outcome : OracleOutcome)
      (parse : String → Except String RawVerdict) (now : String),
      req.predictionId ≠ "" →
      (strTruthy req.predictionText = true ∨
        strTruthy req.predictionSketchUrl = true) →
      p.status = PredictionStatus.created →
      oracleFailed outcome parse →
      ((comparePrediction req.predictionText req.predictionSketchUrl
          p.picture1 p.picture2 outcome parse).matchedPictureId = none
        ∧ (comparePrediction req.predictionText req.predictionSketchUrl
            p.picture1 p.picture2 outcome parse).confidenceScore = 0
        ∧ (comparePrediction req.predictionText req.predictionSketchUrl
            p.picture1 p.picture2 outcome parse).reasoning.isSome = true
        ∧ (comparePrediction req.predictionText req.predictionSketchUrl
            p.picture1 p.picture2 outcome parse).picture1Analysis.isSome = true
        ∧ (comparePrediction req.predictionText req.predictionSketchUrl
            p.picture1 p.picture2 outcome parse).picture2Analysis.isSome =
          true)
      ∧ ∃ p', predictHandler req (some p) outcome parse now =
          (ApiOutcome.ok
            { fullView p' with picture1 := none, picture2 := none },
           some p')
          ∧ p'.status = PredictionStatus.prediction_made
          ∧ p'.matchedTeam = none
          ∧ p'.confidenceScore = some 0 := by
  intro req p outcome parse now hid htruthy hst hfail
  obtain ⟨msg, a1, a2, hcomp⟩ :=
    comparePrediction_degraded req.predictionText req.predictionSketchUrl
      p.picture1 p.picture2 outcome parse htruthy hfail
  refine ⟨by rw [hcomp]; exact ⟨rfl, rfl, rfl, rfl, rfl⟩, ?_⟩
  have hnot2 : ¬(strTruthy req.predictionText = false ∧
      strTruthy req.predictionSketchUrl = false) := by
    rcases htruthy with h | h
    · exact fun hc => by rw [h] at hc; exact absurd hc.1 (by simp)
    · exact fun hc => by rw [h] at hc; exact absurd hc.2 (by simp)
  have hst2 : ¬(p.status ≠ PredictionStatus.created) := fun hc => hc hst
  refine ⟨updatePredictionGuess p now req.predictionText
    req.predictionSketchUrl none 0 (some msg) (some a1) (some a2), ?_, rfl,
    rfl, rfl⟩
  simp only [predictHandler, if_neg hid, if_neg hnot2, if_neg hst2, hcomp]

/-- Witness for `oracle_failure_degraded_verdict`: a throwing oracle call
on the concrete created session. -/
theorem oracle_failure_degraded_verdict_witness :
    reqPredict.predictionId ≠ ""
    ∧ (strTruthy reqPredict.predictionText = true ∨
        strTruthy reqPredict.predictionSketchUrl = true)
    ∧ sessionAB.status = PredictionStatus.created
    ∧ oracleFailed (OracleOutcome.failure "timeout") parseAlwaysThrows
    ∧ (((comparePrediction reqPredict.predictionText
          reqPredict.predictionSketchUrl sessionAB.picture1
          sessionAB.picture2 (OracleOutcome.failure "timeout")
          parseAlwaysThrows).matchedPictureId = none
        ∧ (comparePrediction reqPredict.predictionText
            reqPredict.predictionSketchUrl sessionAB.picture1
            sessionAB.picture2 (OracleOutcome.failure "timeout")
            parseAlwaysThrows).confidenceScore = 0
        ∧ (comparePrediction reqPredict.predictionText
            reqPredict.predictionSketchUrl sessionAB.picture1
            sessionAB.picture2 (OracleOutcome.failure "timeout")
            parseAlwaysThrows).reasoning.isSome = true
        ∧ (comparePrediction reqPredict.predictionText
            reqPredict.predictionSketchUrl sessionAB.picture1
            sessionAB.picture2 (OracleOutcome.failure "timeout")
            parseAlwaysThrows).picture1Analysis.isSome = true
        ∧ (comparePrediction reqPredict.predictionText
            reqPredict.predictionSketchUrl sessionAB.picture1
            sessionAB.picture2 (OracleOutcome.failure "timeout")
            parseAlwaysThrows).picture2Analysis.isSome = true)
      ∧ ∃ p', predictHandler reqPredict (some sessionAB)
          (OracleOutcome.failure "timeout") parseAlwaysThrows "t5" =
          (ApiOutcome.ok
            { fullView p' with picture1 := none, picture2 := none },
           some p')
          ∧ p'.status = PredictionStatus.prediction_made
          ∧ p'.matchedTeam = none
          ∧ p'.confidenceScore = some 0) :=
  ⟨by decide, Or.inl (by decide), rfl, trivial,
   oracle_failure_degraded_verdict reqPredict sessionAB
     (OracleOutcome.failure "timeout") parseAlwaysThrows "t5" (by decide)
     (Or.inl (by decide)) rfl trivial⟩

end Psychic
